import Mathlib

/-!
Verification of the staged AWS deployment scripts of this repository
(`update_aws_deployment.py`, `deploy_to_lambda.py`, `deploy_lambda.py`,
`deploy_to_apprunner.py`, `aws_route53_cloudfront_deploy.py`).

Each Python function that a claim depends on is shallowly embedded as a Lean
function. External effects (boto3 calls, subprocess invocations, HTTP GETs)
are passed in explicitly as response values, so the embedded functions are the
pure control flow of the source. Machine-level details that no claim touches
(terminal colouring, log text) are omitted.
-/

namespace CodeCanvas

/-- Characters dropped from the front of a list while they are whitespace. -/
def dropLeadingWhitespace : List Char → List Char
  | [] => []
  | c :: cs => if c.isWhitespace then dropLeadingWhitespace cs else c :: cs

/-- Python `str.strip()` on the string values this code handles: remove
leading and trailing whitespace. -/
def pyStrip (s : String) : String :=
  ⟨(dropLeadingWhitespace
      (dropLeadingWhitespace s.data.reverse).reverse)⟩

/-! ## Stage Runner — `UpdateDeployer.run` (update_aws_deployment.py) -/

/-- Aggregate outcome of the stage loop in `UpdateDeployer.run`: the trace of
stage actions actually invoked (with each result), the `all_passed` flag, and
the `failed_at` label. -/
structure RunReport where
  executed : List (String × Bool)
  allPassed : Bool
  failedAt : Option String
  deriving Repr, DecidableEq

/-- Stage loop of `UpdateDeployer.run`: invoke each stage action once, in
order; on the first failing result set `all_passed := false`, record the label
in `failed_at` and break, so no later stage action is invoked. -/
def runStages : List (String × Bool) → RunReport
  | [] => { executed := [], allPassed := true, failedAt := none }
  | (label, ok) :: rest =>
    if ok then
      let r := runStages rest
      { executed := (label, ok) :: r.executed, allPassed := r.allPassed,
        failedAt := r.failedAt }
    else
      { executed := [(label, ok)], allPassed := false, failedAt := some label }

/-- The `all_passed` flag of the stage loop is true exactly when every stage
outcome in the list is a success. -/
theorem runStages_allPassed (stages : List (String × Bool)) :
    (runStages stages).allPassed = stages.all (fun s => s.2) := by
  induction stages with
  | nil => rfl
  | cons s rest ih =>
    obtain ⟨label, ok⟩ := s
    cases ok with
    | false => simp [runStages]
    | true => simp [runStages, ih]

/-! ## External Command Executor — `run` (update_aws_deployment.py) -/

/-- Outcome of `subprocess.run(cmd, check=True, capture_output=True,
text=True)` as seen by the `run` helper: normal completion, a
`CalledProcessError` for a non-zero exit (carrying captured stdout, stderr and
`str(exc)`), or an `OSError` such as `FileNotFoundError` when the executable
cannot be located. -/
inductive SubprocOutcome where
  | completed (stdout stderr : String)
  | calledProcessError (stdout stderr excStr : String)
  | osError (message : String)
  deriving Repr, DecidableEq

/-- The `run` helper of update_aws_deployment.py. It catches only
`subprocess.CalledProcessError`, converting a non-zero exit into
`(False, stdout, stderr)` with the Python falsy checks on the captured
streams; any `OSError` (for example a nonexistent executable) is not caught
and propagates, embedded as `Except.error`. -/
def runHelper : SubprocOutcome → Except String (Bool × String × String)
  | .completed stdout stderr => .ok (true, pyStrip stdout, pyStrip stderr)
  | .calledProcessError stdout stderr excStr =>
      .ok (false, if stdout = "" then "" else pyStrip stdout,
                  if stderr = "" then excStr else pyStrip stderr)
  | .osError message => .error message

/-- Whether the executor returned a `(success, stdout, stderr)` tuple to its
caller, as opposed to an exception escaping it. -/
def returnsTuple (r : Except String (Bool × String × String)) : Bool :=
  match r with
  | .ok _ => true
  | .error _ => false

/-! ## Retrying verifiers — stages 11 and 12 of update_aws_deployment.py and
`verify_deployment` of aws_route53_cloudfront_deploy.py -/

/-- Outcome of one `urllib.request.urlopen` GET in stage 11 / stage 12: a
completed response with its status code, an `HTTPError` carrying a status
code, a connection-level `URLError`, or any other exception. -/
inductive UrlProbe where
  | status (code : Nat)
  | httpError (code : Nat)
  | urlError
  | otherError
  deriving Repr, DecidableEq

/-- Per-attempt success test of stages 11 and 12: a completed response with
status 200, 301 or 302 succeeds immediately, as does an `HTTPError` with code
400, 403, 404 or 405 (treated as an application-level reply proving the
infrastructure reachable); every other outcome falls through to the retry
path. -/
def urlAttemptSuccess : UrlProbe → Bool
  | .status code => code == 200 || code == 301 || code == 302
  | .httpError code => code == 400 || code == 403 || code == 404 || code == 405
  | .urlError => false
  | .otherError => false

/-- The retry loop shared by the three verifiers, written as
`for attempt in range(1, max_retries + 1)` in the source: starting at
`attempt`, make up to `fuel` probes, returning on the first successful one.
The result pairs the boolean verdict with the number of probes actually
made. -/
def retryProbes {α : Type} (succ : α → Bool) (probe : Nat → α) :
    Nat → Nat → Bool × Nat
  | _, 0 => (false, 0)
  | attempt, fuel + 1 =>
    if succ (probe attempt) then (true, 1)
    else
      let r := retryProbes succ probe (attempt + 1) fuel
      (r.1, r.2 + 1)

/-- `UpdateDeployer.stage_11_health_check_lambda_url`: up to `max_retries = 5`
GET attempts against the Lambda function URL. -/
def stage11HealthCheck (probe : Nat → UrlProbe) : Bool × Nat :=
  retryProbes urlAttemptSuccess probe 1 5

/-- `UpdateDeployer.stage_12_health_check_public_domain`: up to
`max_retries = 5` GET attempts against the public domain, with the same
per-attempt classification as stage 11. -/
def stage12HealthCheck (probe : Nat → UrlProbe) : Bool × Nat :=
  retryProbes urlAttemptSuccess probe 1 5

/-- Outcome of one `requests.get` in `verify_deployment` of
aws_route53_cloudfront_deploy.py: a response with its final status code
(redirects already followed, since `allow_redirects=True`), or a
`RequestException`. -/
inductive ReqProbe where
  | response (statusCode : Nat)
  | requestException
  deriving Repr, DecidableEq

/-- Per-attempt success test of `verify_deployment`: only
`response.status_code == 200` counts as success; any other status code and
any `RequestException` fall through to the retry path. -/
def vdAttemptSuccess : ReqProbe → Bool
  | .response statusCode => statusCode == 200
  | .requestException => false

/-- `verify_deployment(domain, max_retries, delay)` of
aws_route53_cloudfront_deploy.py, returning the verdict and the number of GET
attempts made. -/
def verifyDeployment (probe : Nat → ReqProbe) (maxRetries : Nat) :
    Bool × Nat :=
  retryProbes vdAttemptSuccess probe 1 maxRetries

/-- A probe that never satisfies the success test is invoked once per
available attempt, exhausting the budget, and the loop then reports
failure. -/
theorem retryProbes_exhaust {α : Type} (succ : α → Bool) (probe : Nat → α)
    (h : ∀ i, succ (probe i) = false) :
    ∀ fuel attempt, retryProbes succ probe attempt fuel = (false, fuel) := by
  intro fuel
  induction fuel with
  | zero => intro attempt; rfl
  | succ n ih =>
    intro attempt
    simp [retryProbes, h attempt, ih (attempt + 1)]

/-! ## Idempotent resource provisioners (deploy_to_lambda.py,
deploy_lambda.py, deploy_to_apprunner.py) -/

/-- Result of one boto3 client call: either the parsed response value or a
`botocore.exceptions.ClientError` carrying its error code. -/
inductive ClientResp (α : Type) where
  | ok (value : α)
  | clientError (code : String)
  deriving Repr, DecidableEq

/-- Image tag constant `IMAGE_TAG = "v1.2"` of deploy_to_lambda.py and
deploy_to_apprunner.py. -/
def lambdaImageTag : String := "v1.2"

/-- `LambdaDeployer.create_ecr_repository` (deploy_to_lambda.py),
parameterised by the responses of the `create_repository` and
`describe_repositories` calls. Returns the boolean result together with the
`ecr_uri` and `image_uri` fields it sets; a `RepositoryAlreadyExistsException`
is recovered by describing and reusing the existing repository, while any
other `ClientError` re-raises into the outer handler, which returns
`False`. -/
def lambdaCreateEcrRepository (create describe : ClientResp String) :
    Bool × Option String × Option String :=
  match create with
  | .ok uri => (true, some uri, some (uri ++ ":" ++ lambdaImageTag))
  | .clientError code =>
    if code = "RepositoryAlreadyExistsException" then
      match describe with
      | .ok uri => (true, some uri, some (uri ++ ":" ++ lambdaImageTag))
      | .clientError _ => (false, none, none)
    else (false, none, none)

/-- `AWSDeployer.create_lambda_function` (deploy_lambda.py): a
`ResourceConflictException` from `create_function` is recovered by updating
the function code in place and returning the existing ARN from
`get_function`; any other `ClientError` re-raises out of the method,
embedded as `Except.error`. -/
def awsCreateLambdaFunction (create : ClientResp String)
    (updateCode : ClientResp Unit) (getFunction : ClientResp String) :
    Except String String :=
  match create with
  | .ok functionArn => .ok functionArn
  | .clientError code =>
    if code = "ResourceConflictException" then
      match updateCode with
      | .ok _ =>
        match getFunction with
        | .ok arn => .ok arn
        | .clientError c => .error c
      | .clientError c => .error c
    else .error code

/-- `LambdaDeployer.create_s3_bucket` (deploy_to_lambda.py): a successful
`head_bucket` means the bucket already exists and is reused; a `404` means it
is created (with `createOps` aggregating the `create_bucket`, versioning,
encryption and tagging calls, any failure of which raises into the outer
handler); any other `head_bucket` error re-raises, and the outer handler
returns `False`. -/
def lambdaCreateS3Bucket (head : ClientResp Unit)
    (createOps : ClientResp Unit) : Bool :=
  match head with
  | .ok _ => true
  | .clientError code =>
    if code = "404" then
      match createOps with
      | .ok _ => true
      | .clientError _ => false
    else false

/-- `LambdaDeployer.create_lambda_execution_role` (deploy_to_lambda.py): an
`EntityAlreadyExists` from `create_role` is recovered by `get_role` plus a
refresh of the inline S3 policy, returning the existing role ARN; any
escaping `ClientError` is caught by the outer handler, which returns
`None`. -/
def lambdaCreateExecutionRole (createRole : ClientResp String)
    (attachPolicy putPolicy : ClientResp Unit)
    (getRole : ClientResp String) : Option String :=
  match createRole with
  | .ok roleArn =>
    match attachPolicy with
    | .ok _ =>
      match putPolicy with
      | .ok _ => some roleArn
      | .clientError _ => none
    | .clientError _ => none
  | .clientError code =>
    if code = "EntityAlreadyExists" then
      match getRole with
      | .ok roleArn =>
        match putPolicy with
        | .ok _ => some roleArn
        | .clientError _ => none
      | .clientError _ => none
    else none

/-- `LambdaDeployer.create_or_update_lambda_function` (deploy_to_lambda.py):
a `ResourceConflictException` from `create_function` is recovered by updating
code and configuration in place (`updateOps` aggregates the two update calls
and their waiters) and returning the ARN from `get_function`; any escaping
exception is caught by the outer handler, which returns `None`. -/
def lambdaCreateOrUpdateFunction (create : ClientResp String)
    (updateOps : ClientResp Unit) (getFunction : ClientResp String) :
    Option String :=
  match create with
  | .ok functionArn => some functionArn
  | .clientError code =>
    if code = "ResourceConflictException" then
      match updateOps with
      | .ok _ =>
        match getFunction with
        | .ok arn => some arn
        | .clientError _ => none
      | .clientError _ => none
    else none

/-- `LambdaDeployer.create_function_url` (deploy_to_lambda.py): a
`ResourceConflictException` from `create_function_url_config` is recovered by
fetching the existing URL with `get_function_url_config`; a conflict from the
inner `add_permission` is ignored; any other escaping `ClientError` is caught
by the outer handler, which returns `None`. -/
def lambdaCreateFunctionUrl (create : ClientResp String)
    (addPermission : ClientResp Unit) (getUrl : ClientResp String) :
    Option String :=
  match create with
  | .ok url =>
    match addPermission with
    | .ok _ => some url
    | .clientError code =>
      if code = "ResourceConflictException" then some url else none
  | .clientError code =>
    if code = "ResourceConflictException" then
      match getUrl with
      | .ok url => some url
      | .clientError _ => none
    else none

/-! ## Modelled external services for the idempotence claim -/

/-- Modelled external ECR state: the repository names that currently exist.
AWS assigns every repository the stable URI `<registry>/<name>`, so the URI
is a function of the name alone. -/
structure EcrWorld where
  repos : List String
  deriving Repr, DecidableEq

/-- ECR registry host `ECR_REPO_URI` built from the configured account and
region. -/
def ecrRegistry : String := "415740581749.dkr.ecr.us-west-2.amazonaws.com"

/-- Stable repository URI a given repository name resolves to. -/
def ecrRepositoryUri (name : String) : String := ecrRegistry ++ "/" ++ name

/-- Modelled `ecr:CreateRepository`: fails with
`RepositoryAlreadyExistsException` when the name exists, otherwise creates it
and returns its URI. -/
def ecrCreateRepositoryApi (w : EcrWorld) (name : String) :
    EcrWorld × ClientResp String :=
  if name ∈ w.repos then (w, .clientError "RepositoryAlreadyExistsException")
  else ({ repos := name :: w.repos }, .ok (ecrRepositoryUri name))

/-- Modelled `ecr:DescribeRepositories` for a single name. -/
def ecrDescribeRepositoriesApi (w : EcrWorld) (name : String) :
    ClientResp String :=
  if name ∈ w.repos then .ok (ecrRepositoryUri name)
  else .clientError "RepositoryNotFoundException"

/-- Repository name constant `ECR_REPO_NAME` shared by the deploy scripts. -/
def ecrRepoName : String := "python-repl-container-lambda"

/-- `AppRunnerDeployer.create_ecr_repository` (deploy_to_apprunner.py) run
against the modelled ECR service: create, and on
`RepositoryAlreadyExistsException` describe and reuse the existing
repository; any other error re-raises. Returns the updated world and the
`ecr_uri` handle. -/
def apprunnerCreateEcrRepository (w : EcrWorld) :
    EcrWorld × Except String String :=
  match ecrCreateRepositoryApi w ecrRepoName with
  | (w1, ClientResp.ok uri) => (w1, Except.ok uri)
  | (w1, ClientResp.clientError code) =>
    if code = "RepositoryAlreadyExistsException" then
      match ecrDescribeRepositoriesApi w1 ecrRepoName with
      | ClientResp.ok uri => (w1, Except.ok uri)
      | ClientResp.clientError c => (w1, Except.error c)
    else (w1, Except.error code)

/-- Modelled external S3 state: the bucket names that currently exist. -/
structure S3World where
  buckets : List String
  deriving Repr, DecidableEq

/-- Bucket name constant `S3_BUCKET_NAME` of deploy_to_lambda.py. -/
def s3BucketName : String := "code-canvas-astro-db"

/-- Modelled `s3:HeadBucket`: `200` when the bucket exists, `404`
otherwise. -/
def s3HeadBucketApi (w : S3World) (name : String) : ClientResp Unit :=
  if name ∈ w.buckets then .ok () else .clientError "404"

/-- Modelled `s3:CreateBucket` together with the follow-up versioning,
encryption and tagging calls, all succeeding. -/
def s3CreateBucketApi (w : S3World) (name : String) :
    S3World × ClientResp Unit :=
  ({ buckets := name :: w.buckets }, .ok ())

/-- `LambdaDeployer.create_s3_bucket` run against the modelled S3 service.
Returns the updated world, the boolean result, and the bucket name the
deployer uses as its handle. -/
def lambdaCreateS3BucketW (w : S3World) : S3World × Bool × String :=
  match s3HeadBucketApi w s3BucketName with
  | ClientResp.ok _ => (w, true, s3BucketName)
  | ClientResp.clientError code =>
    if code = "404" then
      let r := s3CreateBucketApi w s3BucketName
      match r.2 with
      | ClientResp.ok _ => (r.1, true, s3BucketName)
      | ClientResp.clientError _ => (r.1, false, s3BucketName)
    else (w, false, s3BucketName)

/-! ## Stage 1 — `UpdateDeployer.stage_01_read_version` -/

/-- What reading and parsing package.json can yield: an `OSError` (file
unreadable), a `json.JSONDecodeError` (not valid JSON), or a parsed manifest
object with its optional string `version` and `name` fields. -/
inductive PkgJson where
  | unreadable
  | invalidJson
  | manifest (version : Option String) (name : Option String)
  deriving Repr, DecidableEq

/-- Result of stage 1: the boolean stage outcome plus the `self.version` and
`self.image_tag` fields it sets (both initialised to the empty string). -/
structure Stage01Outcome where
  ok : Bool
  version : String
  imageTag : String
  deriving Repr, DecidableEq

/-- `UpdateDeployer.stage_01_read_version`: fails on an unreadable file, on
invalid JSON, and when `data.get("version", "").strip()` is empty; otherwise
stores the stripped version and sets the image tag to `"v"` followed by
it. There is no retry: the body is evaluated once. -/
def stage01ReadVersion : PkgJson → Stage01Outcome
  | .unreadable => ⟨false, "", ""⟩
  | .invalidJson => ⟨false, "", ""⟩
  | .manifest versionField _ =>
    let version := pyStrip (versionField.getD "")
    if version = "" then ⟨false, "", ""⟩
    else ⟨true, version, "v" ++ version⟩

/-- Configuration constant `DOCKER_APP_IMAGE`. -/
def dockerAppImage : String := "code-canvas-astro-app"

/-- Configuration constant `DOCKER_DB_INIT_IMAGE`. -/
def dockerDbInitImage : String := "code-canvas-astro-db-init"

/-- Configuration constant `DOCKERHUB_USERNAME`. -/
def dockerhubUsername : String := "faddah"

/-- Configuration constant `ECR_FULL_URI`. -/
def ecrFullUri : String := ecrRegistry ++ "/" ++ ecrRepoName

/-- Local tag built by stage 2: `f"{DOCKER_APP_IMAGE}:{self.image_tag}"`. -/
def stage02LocalTag (imageTag : String) : String :=
  dockerAppImage ++ ":" ++ imageTag

/-- Local tag built by stage 3:
`f"{DOCKER_DB_INIT_IMAGE}:{self.image_tag}"`. -/
def stage03LocalTag (imageTag : String) : String :=
  dockerDbInitImage ++ ":" ++ imageTag

/-- Versioned Docker Hub tag built by stage 4:
`f"{DOCKERHUB_USERNAME}/{image}:{self.image_tag}"`. -/
def stage04HubTag (image imageTag : String) : String :=
  dockerhubUsername ++ "/" ++ image ++ ":" ++ imageTag

/-- Latest Docker Hub tag built by stage 4:
`f"{DOCKERHUB_USERNAME}/{image}:latest"`. -/
def stage04HubLatestTag (image : String) : String :=
  dockerhubUsername ++ "/" ++ image ++ ":latest"

/-- Local tag built by stage 6: `f"{ECR_REPO_NAME}:{self.image_tag}"`. -/
def stage06LocalTag (imageTag : String) : String :=
  ecrRepoName ++ ":" ++ imageTag

/-- ECR tag built by stage 6: `f"{ECR_FULL_URI}:{self.image_tag}"`, also
stored as `self.ecr_image_uri` and consumed by stage 7. -/
def stage06EcrTag (imageTag : String) : String :=
  ecrFullUri ++ ":" ++ imageTag

/-- All versioned artifact coordinates a run constructs from
`self.image_tag`, in pipeline order: app image (stage 2), db-init image
(stage 3), their Docker Hub tags (stage 4), and the Lambda/ECR image tags
(stage 6). -/
def updateArtifactTags (imageTag : String) : List String :=
  [stage02LocalTag imageTag, stage03LocalTag imageTag,
   stage04HubTag dockerAppImage imageTag,
   stage04HubTag dockerDbInitImage imageTag,
   stage06LocalTag imageTag, stage06EcrTag imageTag]

/-! ## Stage 4 — `UpdateDeployer.stage_04_push_to_dockerhub` -/

/-- External outcomes stage 4 can observe: the result of `docker login`, of
each `docker tag local hub` and of each `docker push tag`. -/
structure DockerOps where
  loginOk : Bool
  tagOk : String → String → Bool
  pushOk : String → Bool

/-- The `docker` commands stage 4 issues after the login, each paired with
its outcome, in source order: for each of the two images, tag versioned, tag
latest, push versioned, push latest. -/
def stage04Commands (imageTag : String) (ops : DockerOps) :
    List (String × Bool) :=
  [ ("docker tag " ++ stage02LocalTag imageTag ++ " " ++
       stage04HubTag dockerAppImage imageTag,
     ops.tagOk (stage02LocalTag imageTag)
       (stage04HubTag dockerAppImage imageTag)),
    ("docker tag " ++ stage02LocalTag imageTag ++ " " ++
       stage04HubLatestTag dockerAppImage,
     ops.tagOk (stage02LocalTag imageTag)
       (stage04HubLatestTag dockerAppImage)),
    ("docker push " ++ stage04HubTag dockerAppImage imageTag,
     ops.pushOk (stage04HubTag dockerAppImage imageTag)),
    ("docker push " ++ stage04HubLatestTag dockerAppImage,
     ops.pushOk (stage04HubLatestTag dockerAppImage)),
    ("docker tag " ++ stage03LocalTag imageTag ++ " " ++
       stage04HubTag dockerDbInitImage imageTag,
     ops.tagOk (stage03LocalTag imageTag)
       (stage04HubTag dockerDbInitImage imageTag)),
    ("docker tag " ++ stage03LocalTag imageTag ++ " " ++
       stage04HubLatestTag dockerDbInitImage,
     ops.tagOk (stage03LocalTag imageTag)
       (stage04HubLatestTag dockerDbInitImage)),
    ("docker push " ++ stage04HubTag dockerDbInitImage imageTag,
     ops.pushOk (stage04HubTag dockerDbInitImage imageTag)),
    ("docker push " ++ stage04HubLatestTag dockerDbInitImage,
     ops.pushOk (stage04HubLatestTag dockerDbInitImage)) ]

/-- Sequential command execution inside stage 4: each command runs in order
and the first failure aborts the stage with `False`; the trace records every
command actually run. -/
def runSeq : List (String × Bool) → Bool × List String
  | [] => (true, [])
  | (cmd, ok) :: rest =>
    if ok then
      let r := runSeq rest
      (r.1, cmd :: r.2)
    else (false, [cmd])

/-- `UpdateDeployer.stage_04_push_to_dockerhub`: the `docker login` result is
bound to `login_ok` and never inspected (the source comments that a failed
login is only warned about and the subsequent push will report the error), so
the tag/push loop runs regardless of `ops.loginOk`. Returns the stage result
and the trace of commands run, the login first. -/
def stage04PushToDockerhub (imageTag : String) (ops : DockerOps) :
    Bool × List String :=
  let body := runSeq (stage04Commands imageTag ops)
  (body.1, ("docker login --username " ++ dockerhubUsername) :: body.2)

/-! ## Pipeline assembly and exit codes -/

/-- `UpdateDeployer.run`: preflight first (abort with `False` when it fails),
then the twelve-stage loop; the overall result is `all_passed`. -/
def updateRun (preflight : Bool) (stages : List (String × Bool)) : Bool :=
  if preflight then (runStages stages).allPassed else false

/-- `main` of update_aws_deployment.py:
`sys.exit(0 if success else 1)`. -/
def updateMainExitCode (preflight : Bool)
    (stages : List (String × Bool)) : Nat :=
  if updateRun preflight stages then 0 else 1

/-- `LambdaDeployer.build_and_push_docker_image` (deploy_to_lambda.py): the
ECR login, build, tag and push subprocesses run in order with `check=True`;
the first `CalledProcessError` is caught and the step returns `False`. -/
def lambdaBuildAndPushDockerImage (login build tag push : Bool) : Bool :=
  login && (build && (tag && push))

/-- All external responses `LambdaDeployer.deploy` can observe, step by
step. -/
structure LambdaDeployEnv where
  s3Head : ClientResp Unit
  s3CreateOps : ClientResp Unit
  ecrCreate : ClientResp String
  ecrDescribe : ClientResp String
  ecrLogin : Bool
  dockerBuild : Bool
  dockerTag : Bool
  dockerPush : Bool
  roleCreate : ClientResp String
  roleAttach : ClientResp Unit
  rolePut : ClientResp Unit
  roleGet : ClientResp String
  fnCreate : ClientResp String
  fnUpdateOps : ClientResp Unit
  fnGet : ClientResp String
  urlCreate : ClientResp String
  urlAddPermission : ClientResp Unit
  urlGet : ClientResp String

/-- The `deployment_result` dictionary `LambdaDeployer.deploy` builds and
returns. -/
structure DeploymentResult where
  success : Bool
  s3Bucket : Option String
  ecrRepository : Option String
  imageUri : Option String
  functionArn : Option String
  functionUrl : Option String
  failedStep : Option String
  error : Option String
  deriving Repr, DecidableEq

/-- `LambdaDeployer.deploy` (deploy_to_lambda.py): run the six steps in
order, stopping at the first failing one with `failed_step` set to its name;
every step catches its own exceptions internally and the whole body sits in a
`try/except Exception` that records any residual exception in `error`, so the
method always returns a `deployment_result` dictionary. `success` becomes
`True` only after all six steps complete. -/
def lambdaDeploy (env : LambdaDeployEnv) : DeploymentResult :=
  let base : DeploymentResult :=
    ⟨false, none, none, none, none, none, none, none⟩
  if !(lambdaCreateS3Bucket env.s3Head env.s3CreateOps) then
    { base with failedStep := some "S3 Bucket" }
  else
    let base := { base with s3Bucket := some s3BucketName }
    match lambdaCreateEcrRepository env.ecrCreate env.ecrDescribe with
    | (false, _, _) => { base with failedStep := some "ECR Repository" }
    | (true, ecrUri, imageUri) =>
      let base := { base with ecrRepository := ecrUri }
      if !(lambdaBuildAndPushDockerImage env.ecrLogin env.dockerBuild
            env.dockerTag env.dockerPush) then
        { base with failedStep := some "Docker Build" }
      else
        let base := { base with imageUri := imageUri }
        match lambdaCreateExecutionRole env.roleCreate env.roleAttach
            env.rolePut env.roleGet with
        | none => { base with failedStep := some "IAM Role" }
        | some _roleArn =>
          match lambdaCreateOrUpdateFunction env.fnCreate env.fnUpdateOps
              env.fnGet with
          | none => { base with failedStep := some "Lambda Function" }
          | some functionArn =>
            let base := { base with functionArn := some functionArn }
            match lambdaCreateFunctionUrl env.urlCreate
                env.urlAddPermission env.urlGet with
            | none => { base with failedStep := some "Function URL" }
            | some functionUrl =>
              { base with functionUrl := some functionUrl, success := true }

/-- `main` of deploy_to_lambda.py: `sys.exit(0)` when
`result["success"]` is truthy, `sys.exit(1)` otherwise. -/
def lambdaMainExitCode (env : LambdaDeployEnv) : Nat :=
  if (lambdaDeploy env).success then 0 else 1

/-! ## Claim theorems -/

/-- Helper for C1: when every stage before `label` succeeds and stage `label`
fails, the run executes exactly the prefix plus the failing stage and reports
the failure. -/
theorem runStages_first_fail (post : List (String × Bool)) (label : String) :
    ∀ pre : List (String × Bool), (∀ p ∈ pre, p.2 = true) →
      runStages (pre ++ (label, false) :: post) =
        { executed := pre ++ [(label, false)], allPassed := false,
          failedAt := some label }
  | [], _ => by simp [runStages]
  | (l, b) :: ps, hpre => by
    have hb : b = true := hpre (l, b) (List.mem_cons_self _ _)
    subst hb
    have hps : ∀ q ∈ ps, q.2 = true := fun q hq =>
      hpre q (List.mem_cons_of_mem _ hq)
    simp [runStages, runStages_first_fail post label ps hps]

/-- C1: in the stage loop of `UpdateDeployer.run`, when stage `label` is the
first whose action fails, the loop invokes exactly the stages up to and
including `label`, once each and in order, never invokes any later stage,
reports overall failure, and records `label` as the first failed stage.
Concretely, for stages [A: success, B: failure, C: success] the trace shows A
and B ran, C never ran, overall success is false and the first failed stage
is B. -/
theorem stage_runner_fail_fast (pre post : List (String × Bool))
    (label : String) (hpre : ∀ p ∈ pre, p.2 = true) :
    runStages (pre ++ (label, false) :: post) =
      { executed := pre ++ [(label, false)], allPassed := false,
        failedAt := some label } ∧
    runStages [("A", true), ("B", false), ("C", true)] =
      { executed := [("A", true), ("B", false)], allPassed := false,
        failedAt := some "B" } :=
  ⟨runStages_first_fail post label pre hpre, rfl⟩

/-- Witness for C1 at the concrete pipeline [A: success, B: failure,
C: success]. -/
theorem stage_runner_fail_fast_witness :
    runStages ([("A", true)] ++ ("B", false) :: [("C", true)]) =
      { executed := [("A", true)] ++ [("B", false)], allPassed := false,
        failedAt := some "B" } :=
  (stage_runner_fail_fast [("A", true)] [("C", true)] "B"
    (by intro p hp; simp only [List.mem_singleton] at hp; rw [hp])).1

/-- C2 counterexample: when the executable cannot be located, `subprocess.run`
raises an `OSError` (`FileNotFoundError`), which the `run` helper does not
catch — it catches only `CalledProcessError` — so the fault propagates out of
the executor instead of being converted into `succeeded=false`. -/
theorem run_missing_executable_raises_cex :
    runHelper (SubprocOutcome.osError
        "[Errno 2] No such file or directory: docker") =
      Except.error "[Errno 2] No such file or directory: docker" ∧
    returnsTuple (runHelper (SubprocOutcome.osError
        "[Errno 2] No such file or directory: docker")) = false :=
  ⟨rfl, rfl⟩

/-- C2 amended: for every command that runs and exits non-zero, the `run`
helper returns `(succeeded=false, captured stdout, captured stderr)` rather
than raising, with `str(exc)` substituted when no stderr was captured;
however, invoking a nonexistent executable raises an uncaught
`FileNotFoundError` that propagates out of the executor. -/
theorem run_nonzero_exit_no_raise :
    (∀ stdout stderr excStr : String, ∃ o e : String,
      runHelper (SubprocOutcome.calledProcessError stdout stderr excStr) =
        Except.ok (false, o, e) ∧
      (stderr ≠ "" → e = pyStrip stderr) ∧
      (stderr = "" → e = excStr)) ∧
    (∀ message : String,
      runHelper (SubprocOutcome.osError message) = Except.error message) := by
  refine ⟨?_, fun _ => rfl⟩
  intro stdout stderr excStr
  refine ⟨_, _, rfl, ?_, ?_⟩
  · intro h; simp [if_neg h]
  · intro h; simp [if_pos h]

/-- Witness for C2 at a concrete non-zero exit with captured stderr. -/
theorem run_nonzero_exit_no_raise_witness :
    ∃ o e : String,
      runHelper (SubprocOutcome.calledProcessError "" "denied" "exit 1") =
        Except.ok (false, o, e) ∧
      ("denied" ≠ "" → e = pyStrip "denied") ∧
      ("denied" = "" → e = "exit 1") :=
  run_nonzero_exit_no_raise.1 "" "denied" "exit 1"

/-- C3: a retrying verifier with a budget of `N` attempts, probing a target
that yields a transient failure on every attempt, invokes the probe exactly
`N` times and then returns false; in particular stage 11 with
`max_retries = 5` performs exactly 5 GET attempts before reporting stage
failure, and `verify_deployment` behaves likewise for its `max_retries`. -/
theorem retry_exhaustion_exact_attempts :
    (∀ {α : Type} (succ : α → Bool) (probe : Nat → α) (start fuel : Nat),
        (∀ i, succ (probe i) = false) →
        retryProbes succ probe start fuel = (false, fuel)) ∧
    (∀ probe : Nat → UrlProbe, (∀ i, urlAttemptSuccess (probe i) = false) →
        stage11HealthCheck probe = (false, 5)) ∧
    (∀ (probe : Nat → ReqProbe) (maxRetries : Nat),
        (∀ i, vdAttemptSuccess (probe i) = false) →
        verifyDeployment probe maxRetries = (false, maxRetries)) := by
  refine ⟨?_, ?_, ?_⟩
  · intro α succ probe start fuel h
    exact retryProbes_exhaust succ probe h fuel start
  · intro probe h
    exact retryProbes_exhaust _ _ h 5 1
  · intro probe maxRetries h
    exact retryProbes_exhaust _ _ h maxRetries 1

/-- Witness for C3: a probe that always hits a connection error is tried
exactly 5 times by stage 11, which then fails. -/
theorem retry_exhaustion_exact_attempts_witness :
    stage11HealthCheck (fun _ => UrlProbe.urlError) = (false, 5) :=
  retry_exhaustion_exact_attempts.2.1 (fun _ => UrlProbe.urlError)
    (fun _ => rfl)

/-- C4 counterexample: `verify_deployment` of
aws_route53_cloudfront_deploy.py is an HTTP endpoint health-check verifier of
this program, yet a probe answering HTTP 403 on every attempt is never
counted as success there — the verifier retries all 5 attempts and returns
false, contradicting the claim that every verifier counts a well-formed 4xx
as success. -/
theorem verify_deployment_403_not_success_cex :
    verifyDeployment (fun _ => ReqProbe.response 403) 5 = (false, 5) ∧
    (verifyDeployment (fun _ => ReqProbe.response 403) 5).1 = false :=
  ⟨rfl, rfl⟩

/-- Helper: the retry loop returns true after exactly one probe when the
first attempt satisfies the success test. -/
theorem retryProbes_first_success {α : Type} (succ : α → Bool)
    (probe : Nat → α) (attempt fuel : Nat)
    (h : succ (probe attempt) = true) :
    retryProbes succ probe attempt (fuel + 1) = (true, 1) := by
  simp [retryProbes, h]

/-- Helper: the retry loop returns true after exactly two probes when the
first attempt fails the success test and the second satisfies it. -/
theorem retryProbes_second_success {α : Type} (succ : α → Bool)
    (probe : Nat → α) (attempt fuel : Nat)
    (h1 : succ (probe attempt) = false)
    (h2 : succ (probe (attempt + 1)) = true) :
    retryProbes succ probe attempt (fuel + 2) = (true, 2) := by
  simp [retryProbes, h1, h2]

/-- C4 amended: the two health-check verifiers of the update pipeline
(stages 11 and 12) count a completed response with status 200, 301 or 302,
and an `HTTPError` with code 400, 403, 404 or 405, as immediate success (an
HTTP 403 makes the stage succeed on that attempt), while connection-level
errors and 5xx responses are retried; but `verify_deployment` of
aws_route53_cloudfront_deploy.py counts only a final status of 200 as
success, retrying every other status including 403, 301 and 302. -/
theorem http_verifier_success_policy :
    (∀ probe : Nat → UrlProbe, probe 1 = UrlProbe.httpError 403 →
        stage11HealthCheck probe = (true, 1) ∧
        stage12HealthCheck probe = (true, 1)) ∧
    (∀ probe : Nat → UrlProbe, probe 1 = UrlProbe.status 301 →
        stage11HealthCheck probe = (true, 1)) ∧
    (∀ probe : Nat → UrlProbe,
        probe 1 = UrlProbe.httpError 500 → probe 2 = UrlProbe.status 200 →
        stage11HealthCheck probe = (true, 2)) ∧
    (∀ probe : Nat → UrlProbe,
        probe 1 = UrlProbe.urlError → probe 2 = UrlProbe.status 200 →
        stage11HealthCheck probe = (true, 2)) ∧
    vdAttemptSuccess (ReqProbe.response 200) = true ∧
    vdAttemptSuccess (ReqProbe.response 403) = false ∧
    vdAttemptSuccess (ReqProbe.response 301) = false := by
  refine ⟨?_, ?_, ?_, ?_, rfl, rfl, rfl⟩
  · intro probe h
    constructor
    · exact retryProbes_first_success _ _ 1 4 (by rw [h]; rfl)
    · exact retryProbes_first_success _ _ 1 4 (by rw [h]; rfl)
  · intro probe h
    exact retryProbes_first_success _ _ 1 4 (by rw [h]; rfl)
  · intro probe h1 h2
    exact retryProbes_second_success _ _ 1 3 (by rw [h1]; rfl)
      (by rw [h2]; rfl)
  · intro probe h1 h2
    exact retryProbes_second_success _ _ 1 3 (by rw [h1]; rfl)
      (by rw [h2]; rfl)

/-- Witness for C4: a probe answering HTTP 403 on the first attempt makes
stage 11 succeed immediately. -/
theorem http_verifier_success_policy_witness :
    stage11HealthCheck (fun _ => UrlProbe.httpError 403) = (true, 1) ∧
    stage12HealthCheck (fun _ => UrlProbe.httpError 403) = (true, 1) :=
  http_verifier_success_policy.1 (fun _ => UrlProbe.httpError 403) rfl

/-- C5: every already-exists / conflict response from the external system is
recovered locally as reuse, never surfaced as an error or a failed step, and
the operation still returns a valid handle: the ECR repository (describe and
reuse the URI), the Lambda function of deploy_lambda.py (update in place and
return the existing ARN), the S3 bucket (head succeeds, reuse), the IAM role
(get the existing role and refresh its policy) and the Function URL (fetch
the existing configuration). -/
theorem already_exists_recovered (describeUri getArn roleArn url : String)
    (createOps attachPolicy addPermission : ClientResp Unit) :
    lambdaCreateEcrRepository
        (ClientResp.clientError "RepositoryAlreadyExistsException")
        (ClientResp.ok describeUri) =
      (true, some describeUri, some (describeUri ++ ":" ++ lambdaImageTag)) ∧
    awsCreateLambdaFunction
        (ClientResp.clientError "ResourceConflictException")
        (ClientResp.ok ()) (ClientResp.ok getArn) = Except.ok getArn ∧
    lambdaCreateS3Bucket (ClientResp.ok ()) createOps = true ∧
    lambdaCreateExecutionRole (ClientResp.clientError "EntityAlreadyExists")
        attachPolicy (ClientResp.ok ()) (ClientResp.ok roleArn) =
      some roleArn ∧
    lambdaCreateOrUpdateFunction
        (ClientResp.clientError "ResourceConflictException")
        (ClientResp.ok ()) (ClientResp.ok getArn) = some getArn ∧
    lambdaCreateFunctionUrl
        (ClientResp.clientError "ResourceConflictException")
        addPermission (ClientResp.ok url) = some url :=
  ⟨rfl, rfl, rfl, rfl, rfl, rfl⟩

/-- Witness for C5 at concrete handles and responses. -/
theorem already_exists_recovered_witness :
    lambdaCreateEcrRepository
        (ClientResp.clientError "RepositoryAlreadyExistsException")
        (ClientResp.ok (ecrRepositoryUri ecrRepoName)) =
      (true, some (ecrRepositoryUri ecrRepoName),
       some (ecrRepositoryUri ecrRepoName ++ ":" ++ lambdaImageTag)) :=
  (already_exists_recovered (ecrRepositoryUri ecrRepoName) "arn" "arn" "url"
    (ClientResp.ok ()) (ClientResp.ok ()) (ClientResp.ok ())).1

/-- C6: provisioning the same resource descriptor twice in succession yields
handles referring to the same underlying resource: a second
`AppRunnerDeployer.create_ecr_repository` against the modelled ECR service
returns the same repository URI that the first returned, and a second
`LambdaDeployer.create_s3_bucket` succeeds and returns the same bucket name
that the first returned, from any starting state. -/
theorem provision_idempotent (w : EcrWorld) (w0 : S3World) :
    ((apprunnerCreateEcrRepository w).2 =
        Except.ok (ecrRepositoryUri ecrRepoName) ∧
      (apprunnerCreateEcrRepository (apprunnerCreateEcrRepository w).1).2 =
        (apprunnerCreateEcrRepository w).2) ∧
    ((lambdaCreateS3BucketW w0).2.1 = true ∧
      (lambdaCreateS3BucketW (lambdaCreateS3BucketW w0).1).2.1 = true ∧
      (lambdaCreateS3BucketW (lambdaCreateS3BucketW w0).1).2.2 =
        (lambdaCreateS3BucketW w0).2.2) := by
  constructor
  · by_cases h : ecrRepoName ∈ w.repos
    · simp [apprunnerCreateEcrRepository, ecrCreateRepositoryApi,
            ecrDescribeRepositoriesApi, h]
    · simp [apprunnerCreateEcrRepository, ecrCreateRepositoryApi,
            ecrDescribeRepositoriesApi, h]
  · by_cases h : s3BucketName ∈ w0.buckets
    · simp [lambdaCreateS3BucketW, s3HeadBucketApi, s3CreateBucketApi, h]
    · simp [lambdaCreateS3BucketW, s3HeadBucketApi, s3CreateBucketApi, h]

/-- Witness for C6 starting from empty external state. -/
theorem provision_idempotent_witness :
    (apprunnerCreateEcrRepository
        (apprunnerCreateEcrRepository ⟨[]⟩).1).2 =
      (apprunnerCreateEcrRepository (⟨[]⟩ : EcrWorld)).2 :=
  (provision_idempotent ⟨[]⟩ ⟨[]⟩).1.2

/-- C7: stage 1 fails (fatally, with no retry — its body is evaluated once)
exactly when package.json is unreadable, is not valid JSON, or lacks a
version field whose stripped value is non-empty; otherwise it succeeds and
sets the image tag to `"v"` concatenated with the version string, and every
versioned artifact coordinate of the run (app image, db-init image, their
Docker Hub tags, Lambda/ECR image tags) is some repository prefix followed by
that single tag. -/
theorem stage01_version_validation :
    (stage01ReadVersion PkgJson.unreadable).ok = false ∧
    (stage01ReadVersion PkgJson.invalidJson).ok = false ∧
    (∀ nameField,
      (stage01ReadVersion (PkgJson.manifest none nameField)).ok = false) ∧
    (∀ v nameField, pyStrip v = "" →
      (stage01ReadVersion (PkgJson.manifest (some v) nameField)).ok =
        false) ∧
    (∀ v nameField, pyStrip v ≠ "" →
      stage01ReadVersion (PkgJson.manifest (some v) nameField) =
        ⟨true, pyStrip v, "v" ++ pyStrip v⟩) ∧
    (∀ v nameField, pyStrip v ≠ "" →
      ∀ t ∈ updateArtifactTags
          ((stage01ReadVersion
              (PkgJson.manifest (some v) nameField)).imageTag),
        ∃ repo, t = repo ++ ":" ++ ("v" ++ pyStrip v)) := by
  have hsucc : ∀ v nameField, pyStrip v ≠ "" →
      stage01ReadVersion (PkgJson.manifest (some v) nameField) =
        ⟨true, pyStrip v, "v" ++ pyStrip v⟩ := by
    intro v nameField h
    simp [stage01ReadVersion, h]
  refine ⟨rfl, rfl, fun nameField => ?_, fun v nameField h => ?_,
    hsucc, fun v nameField h t ht => ?_⟩
  · rfl
  · simp [stage01ReadVersion, h]
  · rw [hsucc v nameField h] at ht
    simp only [updateArtifactTags, List.mem_cons, List.not_mem_nil,
      or_false] at ht
    rcases ht with h1 | h2 | h3 | h4 | h5 | h6
    · exact ⟨dockerAppImage, h1⟩
    · exact ⟨dockerDbInitImage, h2⟩
    · exact ⟨dockerhubUsername ++ "/" ++ dockerAppImage, h3⟩
    · exact ⟨dockerhubUsername ++ "/" ++ dockerDbInitImage, h4⟩
    · exact ⟨ecrRepoName, h5⟩
    · exact ⟨ecrFullUri, h6⟩

/-- Witness for C7 at the concrete version "1.2.0". -/
theorem stage01_version_validation_witness :
    stage01ReadVersion (PkgJson.manifest (some "1.2.0") none) =
      ⟨true, pyStrip "1.2.0", "v" ++ pyStrip "1.2.0"⟩ ∧
    (stage01ReadVersion (PkgJson.manifest (some "") none)).ok = false :=
  ⟨stage01_version_validation.2.2.2.2.1 "1.2.0" none (by decide),
   stage01_version_validation.2.2.2.1 "" none (by decide)⟩

/-- C8: with the preflight checks passing, the update deployment process
exits with status 0 exactly when every stage of the pipeline succeeds and
exits with status 1 whenever any stage fails; likewise deploy_to_lambda.py
exits 0 exactly when `deploy` reports success and 1 whenever it does not. -/
theorem exit_code_iff_success (stages : List (String × Bool))
    (env : LambdaDeployEnv) :
    (updateMainExitCode true stages = 0 ↔
      stages.all (fun s => s.2) = true) ∧
    ((∃ s ∈ stages, s.2 = false) → updateMainExitCode true stages = 1) ∧
    (lambdaMainExitCode env = 0 ↔ (lambdaDeploy env).success = true) ∧
    ((lambdaDeploy env).success = false → lambdaMainExitCode env = 1) := by
  have hup : updateRun true stages = stages.all (fun s => s.2) := by
    simp [updateRun, runStages_allPassed]
  refine ⟨?_, ?_, ?_, ?_⟩
  · cases hall : stages.all (fun s => s.2) with
    | false => simp [updateMainExitCode, hup, hall]
    | true => simp [updateMainExitCode, hup, hall]
  · rintro ⟨s, hs, hfail⟩
    have hall : stages.all (fun s => s.2) = false := by
      rcases hb : stages.all (fun s => s.2) with _ | _
      · rfl
      · exact absurd (List.all_eq_true.mp hb s hs)
          (by simp [hfail])
    simp [updateMainExitCode, hup, hall]
  · cases hs : (lambdaDeploy env).success with
    | false => simp [lambdaMainExitCode, hs]
    | true => simp [lambdaMainExitCode, hs]
  · intro hs
    simp [lambdaMainExitCode, hs]

/-- Environment in which every external call observed by
`LambdaDeployer.deploy` succeeds. -/
def allOkDeployEnv : LambdaDeployEnv where
  s3Head := .ok ()
  s3CreateOps := .ok ()
  ecrCreate := .ok (ecrRepositoryUri ecrRepoName)
  ecrDescribe := .ok (ecrRepositoryUri ecrRepoName)
  ecrLogin := true
  dockerBuild := true
  dockerTag := true
  dockerPush := true
  roleCreate := .ok "arn:aws:iam::415740581749:role/code-canvas-astro-lambda-role"
  roleAttach := .ok ()
  rolePut := .ok ()
  roleGet := .ok "arn:aws:iam::415740581749:role/code-canvas-astro-lambda-role"
  fnCreate := .ok "arn:aws:lambda:us-west-2:415740581749:function:code-canvas-astro-lambda"
  fnUpdateOps := .ok ()
  fnGet := .ok "arn:aws:lambda:us-west-2:415740581749:function:code-canvas-astro-lambda"
  urlCreate := .ok "https://jb6uzlmmok5wxyr2nzdci3wdfi0rcush.lambda-url.us-west-2.on.aws/"
  urlAddPermission := .ok ()
  urlGet := .ok "https://jb6uzlmmok5wxyr2nzdci3wdfi0rcush.lambda-url.us-west-2.on.aws/"

/-- Witness for C8: one failing stage makes the update script exit 1, and an
all-success lambda deployment makes deploy_to_lambda.py exit 0. -/
theorem exit_code_iff_success_witness :
    updateMainExitCode true [("Stage 1", false)] = 1 ∧
    lambdaMainExitCode allOkDeployEnv = 0 :=
  ⟨(exit_code_iff_success [("Stage 1", false)] allOkDeployEnv).2.1
      ⟨("Stage 1", false), by simp, rfl⟩,
   (exit_code_iff_success [("Stage 1", false)] allOkDeployEnv).2.2.1.mpr
      rfl⟩

/-- C9: in stage 4 the result of `docker login` is bound but never inspected:
the stage result and the sequence of tag/push commands run are identical
whether the login succeeded or failed, the stage succeeds when every tag and
push succeeds even though the login failed, and the stage fails only through
a tag or push failure. -/
theorem stage04_login_ignored (imageTag : String)
    (tagOk : String → String → Bool) (pushOk : String → Bool) :
    (stage04PushToDockerhub imageTag ⟨false, tagOk, pushOk⟩ =
      stage04PushToDockerhub imageTag ⟨true, tagOk, pushOk⟩) ∧
    ((stage04PushToDockerhub imageTag
        ⟨false, fun _ _ => true, fun _ => true⟩).1 = true) ∧
    ((stage04PushToDockerhub imageTag
        ⟨true, fun _ _ => true, fun _ => false⟩).1 = false) ∧
    (∀ ops : DockerOps, (stage04PushToDockerhub imageTag ops).1 =
      (runSeq (stage04Commands imageTag ops)).1) :=
  ⟨rfl, rfl, rfl, fun _ => rfl⟩

/-- Witness for C9 at the concrete tag v1.2.0. -/
theorem stage04_login_ignored_witness :
    stage04PushToDockerhub "v1.2.0"
        ⟨false, fun _ _ => true, fun _ => true⟩ =
      stage04PushToDockerhub "v1.2.0"
        ⟨true, fun _ _ => true, fun _ => true⟩ :=
  (stage04_login_ignored "v1.2.0" (fun _ _ => true) (fun _ => true)).1

/-- C10: `LambdaDeployer.deploy` always returns a `deployment_result`
dictionary (each step catches its own exceptions and the body sits in a
`try/except Exception`, so nothing propagates to the caller — the embedding
is a total function); `success` is true exactly when all six steps complete,
and whenever it is false the result names a failed step. -/
theorem lambda_deploy_result (env : LambdaDeployEnv) :
    ((lambdaDeploy env).success = true ↔
      (lambdaCreateS3Bucket env.s3Head env.s3CreateOps = true ∧
       (lambdaCreateEcrRepository env.ecrCreate env.ecrDescribe).1 = true ∧
       lambdaBuildAndPushDockerImage env.ecrLogin env.dockerBuild
         env.dockerTag env.dockerPush = true ∧
       (lambdaCreateExecutionRole env.roleCreate env.roleAttach env.rolePut
         env.roleGet).isSome = true ∧
       (lambdaCreateOrUpdateFunction env.fnCreate env.fnUpdateOps
         env.fnGet).isSome = true ∧
       (lambdaCreateFunctionUrl env.urlCreate env.urlAddPermission
         env.urlGet).isSome = true)) ∧
    ((lambdaDeploy env).success = false →
      (lambdaDeploy env).failedStep.isSome = true) ∧
    ((lambdaDeploy env).success = true →
      (lambdaDeploy env).failedStep = none) := by
  cases h1 : lambdaCreateS3Bucket env.s3Head env.s3CreateOps with
  | false => simp [lambdaDeploy, h1]
  | true =>
    rcases h2 : lambdaCreateEcrRepository env.ecrCreate env.ecrDescribe
      with ⟨b2, u2, i2⟩
    cases b2 with
    | false => simp [lambdaDeploy, h1, h2]
    | true =>
      cases h3 : lambdaBuildAndPushDockerImage env.ecrLogin env.dockerBuild
          env.dockerTag env.dockerPush with
      | false => simp [lambdaDeploy, h1, h2, h3]
      | true =>
        cases h4 : lambdaCreateExecutionRole env.roleCreate env.roleAttach
            env.rolePut env.roleGet with
        | none => simp [lambdaDeploy, h1, h2, h3, h4]
        | some roleArn =>
          cases h5 : lambdaCreateOrUpdateFunction env.fnCreate
              env.fnUpdateOps env.fnGet with
          | none => simp [lambdaDeploy, h1, h2, h3, h4, h5]
          | some arn =>
            cases h6 : lambdaCreateFunctionUrl env.urlCreate
                env.urlAddPermission env.urlGet with
            | none => simp [lambdaDeploy, h1, h2, h3, h4, h5, h6]
            | some url => simp [lambdaDeploy, h1, h2, h3, h4, h5, h6]

/-- Witness for C10: in the all-success environment, `deploy` reports
success and no failed step. -/
theorem lambda_deploy_result_witness :
    (lambdaDeploy allOkDeployEnv).failedStep = none :=
  (lambda_deploy_result allOkDeployEnv).2.2 rfl

end CodeCanvas
